import Mathlib

/-!
Verification development for the samwrap repository.

The two source files, src/SamtoolsWrapper.py and src/samwrap.py, are embedded
shallowly below.  Python code that can raise an exception is modelled in the
Except monad over an explicit error type; the embedding keeps the source
statement order, the source names, and the source control flow, including the
places where the source evaluates a name that is not bound anywhere in its
module.  Every definition is executable so that theorems can be checked on
concrete inputs.
-/

/-- Python exceptions that the embedded code can raise. -/
inductive PyErr where
  | nameError (msg : String)
  | typeError (msg : String)
  | attributeError (msg : String)
  | keyError (msg : String)
  | valueError (msg : String)
  | stopIteration
deriving DecidableEq

/-- The operation kwargs values stored in the operations dict.  The source
stores a dict with key sort_threads for the sort operation and a dict with key
positions_fp for the position filter operation (src/samwrap.py,
get_operations_dict). -/
inductive Kwargs where
  | sortKwargs (sort_threads : Nat)
  | positionFilterKwargs (positions_fp : String)
deriving DecidableEq

/-- Evaluation of the name output_file inside get_sort_command and
get_position_filter_command.  The module SamtoolsWrapper.py binds the names
eprint, get_sort_command, get_position_filter_command, index_bam and
SamtoolsWrapper and imports os, subprocess, sys, OrderedDict and Pool; it never
binds a name output_file, so evaluating output_file raises NameError. -/
def output_file_lookup : Except PyErr (Option String) :=
  Except.error (PyErr.nameError "name output_file is not defined")

/-- Evaluation of re.sub inside run_bams.  The module SamtoolsWrapper.py never
imports re, so evaluating the name re raises NameError before any substitution
function is obtained. -/
def re_sub : Except PyErr (String → String → String → String) :=
  Except.error (PyErr.nameError "name re is not defined")

/-- get_sort_command from src/SamtoolsWrapper.py (lines 10 to 28).  The body
builds the token list, then tests the unbound name output_file; the two
conditional extensions below are therefore dead code but are kept to mirror the
source.  Note that the parameter sort_threads is accepted and never used: the
source emits no thread-count flag.  A Python None path argument is modelled as
Option.none; the dead output branch uses getD since it can never insert a
Python None into the list. -/
def get_sort_command (bam_fp output_fp : Option String) (sort_threads : Nat) :
    Except PyErr (List String) := do
  let samtools_command := ["samtools", "sort"]
  let output_file ← output_file_lookup
  let samtools_command :=
    if output_file.isSome then samtools_command ++ ["-o", output_fp.getD ""]
    else samtools_command
  let samtools_command :=
    match bam_fp with
    | some b => samtools_command ++ [b]
    | none => samtools_command
  let _ := sort_threads
  pure samtools_command

/-- get_position_filter_command from src/SamtoolsWrapper.py (lines 30 to 51).
Like get_sort_command it tests the unbound name output_file after building the
initial token list. -/
def get_position_filter_command (bam_fp output_fp : Option String)
    (positions_fp : String) : Except PyErr (List String) := do
  let samtools_command := ["samtools", "view", "-L", positions_fp]
  let output_file ← output_file_lookup
  let samtools_command :=
    if output_file.isSome then samtools_command ++ ["-o", output_fp.getD ""]
    else samtools_command
  let samtools_command :=
    match bam_fp with
    | some b => samtools_command ++ [b]
    | none => samtools_command
  pure samtools_command

/-- The token list built by index_bam (src/SamtoolsWrapper.py lines 53 to 59)
and handed to subprocess.check_output. -/
def index_bam_command (bam_fp : String) : List String :=
  ["samtools", "index", bam_fp]

/-- The attribute state a SamtoolsWrapper instance carries after __init__
(src/SamtoolsWrapper.py lines 62 to 101): exactly the six attributes the
constructor assigns.  The ordered operations dict is an association list whose
values model the Python values, with Option.none standing for Python None (the
documented kwargs value for the index operation). -/
structure SamtoolsWrapperState where
  input_files : List String
  output_dir : String
  operations_dict : List (String × Option Kwargs)
  output_descriptor : String
  num_threads : Nat
  verbose : Bool
deriving DecidableEq

/-- SamtoolsWrapper.__init__: stores the six arguments.  The worker count
argument named threads is stored in the attribute num_threads. -/
def SamtoolsWrapper_init (input_files : List String) (output_dir : String)
    (operations_dict : List (String × Option Kwargs))
    (output_descriptor : String) (threads : Nat) (verbose : Bool) :
    SamtoolsWrapperState :=
  { input_files := input_files, output_dir := output_dir,
    operations_dict := operations_dict, output_descriptor := output_descriptor,
    num_threads := threads, verbose := verbose }

/-- Attribute access self.threads, performed by run_bams when it builds the
worker pool.  __init__ assigns num_threads and never assigns an attribute
named threads, so the lookup raises AttributeError. -/
def SamtoolsWrapperState.threads_attr (_ : SamtoolsWrapperState) :
    Except PyErr Nat :=
  Except.error
    (PyErr.attributeError "SamtoolsWrapper object has no attribute threads")

/-- del d[key] on the ordered dict: removes the entry for the key. -/
def pyDictDel (key : String) (d : List (String × Option Kwargs)) :
    List (String × Option Kwargs) :=
  d.filter (fun kv => kv.1 != key)

/-- next(items) where items is the odict_items view returned by
self.operations_dict.items().  Python dict views support iteration but are not
themselves iterators (they have no __next__ method), so the built-in next
raises TypeError whatever the dict contains, empty or not. -/
def pyNextOnItemsView (_ : List (String × Option Kwargs)) :
    Except PyErr (String × Option Kwargs) :=
  Except.error (PyErr.typeError "odict_items object is not an iterator")

/-- command_args += v where v may be a Python None (the fall-through result of
get_command_from_identifier): extending a list with None raises TypeError. -/
def pyListExtend (xs : List String) (v : Option (List String)) :
    Except PyErr (List String) :=
  match v with
  | some ys => Except.ok (xs ++ ys)
  | none => Except.error (PyErr.typeError "argument of type NoneType is not iterable")

/-- kwargs[sort_threads]: subscripting a Python None raises TypeError, a dict
without the key raises KeyError. -/
def kwargs_subscript_sort_threads (kwargs : Option Kwargs) : Except PyErr Nat :=
  match kwargs with
  | none => Except.error (PyErr.typeError "NoneType object is not subscriptable")
  | some (Kwargs.sortKwargs n) => Except.ok n
  | some (Kwargs.positionFilterKwargs _) => Except.error (PyErr.keyError "sort_threads")

/-- kwargs[positions_fp]: subscripting a Python None raises TypeError, a dict
without the key raises KeyError. -/
def kwargs_subscript_positions_fp (kwargs : Option Kwargs) :
    Except PyErr String :=
  match kwargs with
  | none => Except.error (PyErr.typeError "NoneType object is not subscriptable")
  | some (Kwargs.positionFilterKwargs fp) => Except.ok fp
  | some (Kwargs.sortKwargs _) => Except.error (PyErr.keyError "positions_fp")

/-- SamtoolsWrapper.get_command_from_identifier (src/SamtoolsWrapper.py lines
169 to 175).  The source is two guard ifs each ending in return; since the
first returns, nesting the second in the else branch is equivalent.  Python
evaluates the kwargs subscript before entering the callee.  When neither guard
matches, control falls off the end of the function and Python returns None,
modelled as Except.ok Option.none: no exception is raised. -/
def get_command_from_identifier (bam_fp output_fp : Option String)
    (identifier : String) (kwargs : Option Kwargs) :
    Except PyErr (Option (List String)) :=
  if identifier = "sort" then do
    let st ← kwargs_subscript_sort_threads kwargs
    let c ← get_sort_command bam_fp output_fp st
    pure (some c)
  else if identifier = "position_filter" then do
    let pfp ← kwargs_subscript_positions_fp kwargs
    let c ← get_position_filter_command bam_fp output_fp pfp
    pure (some c)
  else
    pure none

/-- SamtoolsWrapper.generate_stream_commands (src/SamtoolsWrapper.py lines 141
to 167).  The body first evaluates next(items) on the items view, which raises
TypeError (see pyNextOnItemsView), so everything after that bind is dead code;
it is nevertheless translated in full, statement for statement, to mirror the
source: the inverted zero test, the first-stage emission with a trailing pipe
marker, and the loop whose counter c is initialised to 0 and never
incremented, so that its last-stage test compares num_operations - 1 with 0 on
every iteration.  Iterating the view visits every entry of the dict. -/
def generate_stream_commands (s : SamtoolsWrapperState)
    (bam_fp output_fp : String) : Except PyErr (Option (List String)) := do
  let command_args : List String := []
  let items := s.operations_dict
  let (operation_identifier, operation_kwargs) ← pyNextOnItemsView items
  let num_operations := s.operations_dict.length
  if num_operations = 0 then
    get_command_from_identifier (some bam_fp) (some output_fp)
      operation_identifier operation_kwargs
  else do
    let first ← get_command_from_identifier (some bam_fp) none
      operation_identifier operation_kwargs
    let command_args ← pyListExtend command_args first
    let command_args := command_args ++ ["|"]
    let c := 0
    let final ← items.foldlM (fun acc item => do
      let (operation_identifier, operation_kwargs) := item
      if num_operations - 1 = c then do
        let cmd ← get_command_from_identifier none (some output_fp)
          operation_identifier operation_kwargs
        pyListExtend acc cmd
      else do
        let cmd ← get_command_from_identifier none none
          operation_identifier operation_kwargs
        let acc2 ← pyListExtend acc cmd
        pure (acc2 ++ ["|"])) command_args
    pure (some final)

/-- subprocess.check_output at the argument level: a Python None argument is a
TypeError; for an actual token list the external invocation itself is outside
the model and is treated as succeeding with the tokens recorded. -/
def subprocess_check_output (cmd : Option (List String)) :
    Except PyErr (List String) :=
  match cmd with
  | none => Except.error (PyErr.typeError "NoneType argument to check_output")
  | some tokens => Except.ok tokens

/-- SamtoolsWrapper.execute_bam (src/SamtoolsWrapper.py lines 124 to 139): the
optional index pre-step, then the streamed command, then the verbose notice
(a pure side effect, not modelled), returning output_fp. -/
def execute_bam (s : SamtoolsWrapperState) (bam_fp output_fp : String)
    (index_input_bam : Bool) : Except PyErr String := do
  let _ := if index_input_bam then some (index_bam_command bam_fp) else none
  let command_args ← generate_stream_commands s bam_fp output_fp
  let _ ← subprocess_check_output command_args
  pure output_fp

/-- SamtoolsWrapper.worker_wrapper: unpacks one argument tuple. -/
def worker_wrapper (s : SamtoolsWrapperState)
    (args : String × String × Bool) : Except PyErr String :=
  execute_bam s args.1 args.2.1 args.2.2

/-- os.path.join restricted to the shapes the source uses: a directory joined
with a relative file name.  (The os.path.join behaviour on an absolute second
argument is never exercised by the source.) -/
def os_path_join (a b : String) : String :=
  if a.endsWith "/" ∨ a = "" then a ++ b else a ++ "/" ++ b

/-- The per-file output path computation of run_bams (src/SamtoolsWrapper.py
lines 113 to 118): sample = fp.split on the slash, last element; then
sample = re.sub of the pattern .bam by output_descriptor ++ .bam; the name re
is unbound in the module, so the second statement raises NameError before any
path is produced.  (Python str.split never yields an empty list, so taking the
last element with a default is exact.) -/
def compute_output_fp (output_dir output_descriptor fp : String) :
    Except PyErr String := do
  let sample := (fp.splitOn "/").getLastD ""
  let sub ← re_sub
  let sample := sub ".bam" (output_descriptor ++ ".bam") sample
  pure (os_path_join output_dir sample)

/-- The arg_pool loop of run_bams: one (fp, output_fp, index_input_bam) tuple
per input file, in order. -/
def build_arg_pool (s : SamtoolsWrapperState) (index_input_bam : Bool) :
    Except PyErr (List (String × String × Bool)) :=
  s.input_files.foldlM (fun arg_pool fp => do
    let output_fp ← compute_output_fp s.output_dir s.output_descriptor fp
    pure (arg_pool ++ [(fp, output_fp, index_input_bam)])) []

/-- SamtoolsWrapper.run_bams (src/SamtoolsWrapper.py lines 103 to 121).
First component of the result: the attribute state after the call (the only
statement that writes an attribute is the del on the operations dict, executed
exactly when operations_dict.get of index is not None; Python dict.get returns
None both for an absent key and for a key stored with value None, hence the
join).  Second component: the raised exception or the returned value.  The
pool construction Pool(self.threads) reads the unassigned attribute threads,
and p.map applies worker_wrapper to every tuple, raising the first exception a
job raises. -/
def run_bams (s : SamtoolsWrapperState) :
    SamtoolsWrapperState × Except PyErr Unit :=
  let v : Option Kwargs := (s.operations_dict.lookup "index").join
  let index_input_bam := v.isSome
  let ops2 :=
    if v.isSome then pyDictDel "index" s.operations_dict
    else s.operations_dict
  let s2 := { s with operations_dict := ops2 }
  let result : Except PyErr Unit := do
    let arg_pool ← build_arg_pool s2 index_input_bam
    let _ ← s2.threads_attr
    let _ ← arg_pool.mapM (worker_wrapper s2)
    pure ()
  (s2, result)

/-- The parsed command line options of src/samwrap.py with their argparse
types: the three path options default to None, the two flags to False. -/
structure Args where
  input_dir : Option String
  input_files : Option String
  output_dir : Option String
  bulk_index : Bool
  bulk_sort : Bool
  sort_threads : Nat
  filter_positions : Option String
  output_descriptor : String
  threads : Nat
  verbose : Bool

/-- The filesystem as seen by src/samwrap.py: directory listings and the lines
of a text file (with their trailing newline characters, as Python file
iteration yields them). -/
structure FileSystem where
  listdir : String → List String
  readlines : String → List String

/-- The observable work main performs before invoking the wrapper. -/
inductive Effect where
  | listDir (dir : String)
  | readFile (fp : String)
  | runBamsCall
deriving DecidableEq

/-- get_fps_from_file (src/samwrap.py): each line with newline characters
removed. -/
def get_fps_from_file (fs : FileSystem) (fp : String) : List String :=
  (fs.readlines fp).map (fun line => line.replace "\n" "")

/-- get_fps_from_dir (src/samwrap.py): directory entries whose last four
characters are .bam, joined to the directory.  (For the four character suffix
test, the Python slice comparison and the suffix test agree on all strings.) -/
def get_fps_from_dir (fs : FileSystem) (dir_path : String) : List String :=
  ((fs.listdir dir_path).filter (fun p => p.endsWith ".bam")).map
    (fun p => os_path_join dir_path p)

/-- get_input_files (src/samwrap.py), together with the file system effect it
performs.  main only reaches it after check_arguments has ensured that at
least one input option is set; when input_dir is None the source opens
args.input_files, modelled with a default that is never exercised from main. -/
def get_input_files (args : Args) (fs : FileSystem) :
    List Effect × List String :=
  match args.input_dir with
  | some d => ([Effect.listDir d], get_fps_from_dir fs d)
  | none =>
      let fp := args.input_files.getD ""
      ([Effect.readFile fp], get_fps_from_file fs fp)

/-- get_operations_dict (src/samwrap.py): the ordered dict entries in source
order, index first, then position_filter, then sort; index is stored with the
Python value None. -/
def get_operations_dict (args : Args) : List (String × Option Kwargs) :=
  (if args.bulk_index then [("index", (none : Option Kwargs))] else []) ++
  (match args.filter_positions with
   | some fp => [("position_filter", some (Kwargs.positionFilterKwargs fp))]
   | none => []) ++
  (if args.bulk_sort then [("sort", some (Kwargs.sortKwargs args.sort_threads))]
   else [])

/-- check_arguments (src/samwrap.py lines 108 to 113): two guard statements,
each raising ValueError; the first raises, so the second runs only when the
first condition fails. -/
def check_arguments (args : Args) : Except PyErr Unit :=
  if args.output_dir.isNone then
    Except.error (PyErr.valueError "Must specify --output-dir")
  else if args.input_dir.isNone && args.input_files.isNone then
    Except.error (PyErr.valueError
      "Must specify an --input-files file list or --input_dir directory.")
  else
    Except.ok ()

/-- main (src/samwrap.py lines 115 to 124; the Lean name samwrap_main avoids
the entry point name): check_arguments, then the input
listing, then the operations dict, then wrapper construction, then run_bams.
When check_arguments raises, main performs none of the later steps, which is
what the empty effect list in the error branch records.  (samwrap.py imports
its wrapper from a module named samtools_wrapper whose file is not under src;
the success branch below uses the src/SamtoolsWrapper.py class, which the
properties checked about main do not depend on.) -/
def samwrap_main (args : Args) (fs : FileSystem) : List Effect × Except PyErr Unit :=
  match check_arguments args with
  | Except.error e => ([], Except.error e)
  | Except.ok _ =>
      let (effs, input_fps) := get_input_files args fs
      let operations_dict := get_operations_dict args
      let sw := SamtoolsWrapper_init input_fps (args.output_dir.getD "")
        operations_dict args.output_descriptor args.threads args.verbose
      let (_, r) := run_bams sw
      (effs ++ [Effect.runBamsCall], r)

/-! Concrete instances used by the theorems below. -/

/-- A wrapper state whose operations dict holds the two stage ordering
position_filter then sort, as produced by samwrap for a filter plus sort
run. -/
def sFilterThenSort : SamtoolsWrapperState :=
  SamtoolsWrapper_init ["/in/a.bam"] "/out"
    [("position_filter", some (Kwargs.positionFilterKwargs "regions.bed")),
     ("sort", some (Kwargs.sortKwargs 2))] ".output" 1 true

/-- A wrapper state with the single operation sort. -/
def sSingleSort : SamtoolsWrapperState :=
  SamtoolsWrapper_init ["/in/a.bam"] "/out"
    [("sort", some (Kwargs.sortKwargs 4))] ".output" 1 true

/-- A wrapper state with an empty operations dict. -/
def sEmptyOps : SamtoolsWrapperState :=
  SamtoolsWrapper_init ["/in/a.bam"] "/out" [] ".output" 1 true

/-- A wrapper state requesting index alongside sort with the documented
encoding of index, a Python None kwargs value. -/
def sIndexDocumented : SamtoolsWrapperState :=
  SamtoolsWrapper_init ["/in/a.bam"] "/out"
    [("index", none), ("sort", some (Kwargs.sortKwargs 1))] ".output" 1 true

/-- A wrapper state whose operations dict stores index with a value that is
not the Python None. -/
def sIndexNonNone : SamtoolsWrapperState :=
  SamtoolsWrapper_init ["/in/a.bam"] "/out"
    [("index", some (Kwargs.sortKwargs 1)),
     ("sort", some (Kwargs.sortKwargs 2))] ".output" 1 true

/-- A wrapper state whose operations dict has no index entry at all. -/
def sIndexAbsent : SamtoolsWrapperState :=
  SamtoolsWrapper_init ["/in/a.bam"] "/out"
    [("sort", some (Kwargs.sortKwargs 2))] ".output" 1 true

/-- A command line with no output directory given. -/
def argsNoOutput : Args :=
  { input_dir := some "/in", input_files := none, output_dir := none,
    bulk_index := false, bulk_sort := true, sort_threads := 1,
    filter_positions := none, output_descriptor := ".output", threads := 1,
    verbose := true }

/-- A file system with nothing in it. -/
def fsEmpty : FileSystem :=
  { listdir := fun _ => [], readlines := fun _ => [] }

/-! Theorems settling the claims. -/

/-- Claim C1: the spec asks that for an N operation sequence with N at least 2
the builder produce N invocations joined by N minus 1 pipe markers, with the
real input path only on the first and the real output path only on the last.
The source never produces such a token list: on the two operation sequence
position_filter then sort, generate_stream_commands raises TypeError at the
next call on the operations dict items view, before emitting a single token. -/
theorem generate_stream_commands_two_ops_raises :
    generate_stream_commands sFilterThenSort "a.bam" "a.out.bam" =
      Except.error (PyErr.typeError "odict_items object is not an iterator") :=
  rfl

/-- Claim C2: the spec asks that a single operation sequence produce one
invocation carrying both real paths and no pipe marker.  The source raises
TypeError at the next call on the items view instead, so no single invocation
token list is ever returned. -/
theorem generate_stream_commands_single_op_raises :
    generate_stream_commands sSingleSort "a.bam" "a.out.bam" =
      Except.error (PyErr.typeError "odict_items object is not an iterator") :=
  rfl

/-- Claim C3: the spec maps Sort to the samtools sort invocation with output
and thread-count flags and PositionFilter to samtools view with the -L flag.
Both builders instead evaluate the unbound module name output_file and raise
NameError before returning any token list (and get_sort_command never emits a
thread-count flag at all: its sort_threads parameter is unused). -/
theorem sort_and_filter_commands_raise_name_error :
    get_sort_command (some "a.bam") (some "a.out.bam") 4 =
      Except.error (PyErr.nameError "name output_file is not defined") ∧
    get_position_filter_command (some "a.bam") (some "a.out.bam") "regions.bed" =
      Except.error (PyErr.nameError "name output_file is not defined") :=
  ⟨rfl, rfl⟩

/-- Claim C4: the spec asks that when Index is requested alongside another
operation, run_bams remove it from the sequence and run the index subcommand
as a separate pre-step before the remaining pipeline.  On the documented
encoding, where the index key is stored with the Python value None,
operations_dict.get returns None, so index is neither removed nor marked for
the pre-step; and run_bams then raises NameError on the unbound name re before
dispatching any job, so neither the index invocation nor any pipeline runs. -/
theorem run_bams_index_prestep_never_runs :
    (run_bams sIndexDocumented).1.operations_dict =
      sIndexDocumented.operations_dict ∧
    (run_bams sIndexDocumented).2 =
      Except.error (PyErr.nameError "name re is not defined") :=
  ⟨rfl, rfl⟩

/-- Claim C5: the spec asks that input /in/sample.bam with suffix .filtered
and output directory /out yield the output path /out/sample.filtered.bam.
The per-file computation instead raises NameError on the unbound name re, so
no output path is ever produced. -/
theorem compute_output_fp_raises_name_error :
    compute_output_fp "/out" ".filtered" "/in/sample.bam" =
      Except.error (PyErr.nameError "name re is not defined") :=
  rfl

/-- Claim C6, counterexample: run_bams is not free of state mutation.  On a
state whose operations dict stores index with a value other than the Python
None, run_bams deletes the index entry, so the operations dict after the call
differs from the one before it. -/
theorem run_bams_mutates_operations_dict :
    (run_bams sIndexNonNone).1.operations_dict ≠
      sIndexNonNone.operations_dict := by
  decide

/-- Claim C6, amended: run_bams never modifies input_files, output_dir,
output_descriptor, num_threads or verbose; the operations dict is unchanged
whenever its index lookup yields the Python None (in particular under the
documented encoding, and when index is absent), and is changed exactly by
deleting the index entry when that entry holds a value other than None.  Jobs
never modify anything since run_bams raises before dispatching them. -/
theorem run_bams_frame_condition (s : SamtoolsWrapperState) :
    (run_bams s).1.input_files = s.input_files ∧
    (run_bams s).1.output_dir = s.output_dir ∧
    (run_bams s).1.output_descriptor = s.output_descriptor ∧
    (run_bams s).1.num_threads = s.num_threads ∧
    (run_bams s).1.verbose = s.verbose ∧
    ((s.operations_dict.lookup "index").join = none →
      (run_bams s).1.operations_dict = s.operations_dict) ∧
    ((s.operations_dict.lookup "index").join ≠ none →
      (run_bams s).1.operations_dict = pyDictDel "index" s.operations_dict) := by
  refine ⟨rfl, rfl, rfl, rfl, rfl, ?_, ?_⟩
  · intro h
    simp only [run_bams, h]
    simp
  · intro h
    rcases hv : (s.operations_dict.lookup "index").join with _ | kw
    · exact absurd hv h
    · simp only [run_bams, hv]
      simp

/-- Claim C6, witness for the amended statement: on a state without an index
entry the operations dict is untouched. -/
theorem run_bams_frame_condition_witness :
    (run_bams sIndexAbsent).1.operations_dict =
      sIndexAbsent.operations_dict :=
  (run_bams_frame_condition sIndexAbsent).2.2.2.2.2.1 rfl

/-- Claim C7, counterexample: for the identifier index, which is not one of
the two known command identifiers, get_command_from_identifier raises no
error: it falls off the end of the function and returns the Python None. -/
theorem get_command_index_identifier_silent_none :
    get_command_from_identifier (some "a.bam") (some "a.out.bam") "index"
      none = Except.ok none :=
  rfl

/-- Claim C7, amended: for every identifier other than sort and
position_filter, get_command_from_identifier surfaces no error at all; it
silently returns the Python None, a non-command value, and the failure can
only appear later when a caller uses that value. -/
theorem get_command_unknown_identifier_no_error
    (bam_fp output_fp : Option String) (identifier : String)
    (kwargs : Option Kwargs) (h1 : identifier ≠ "sort")
    (h2 : identifier ≠ "position_filter") :
    get_command_from_identifier bam_fp output_fp identifier kwargs =
      Except.ok none := by
  unfold get_command_from_identifier
  rw [if_neg h1, if_neg h2]
  rfl

/-- Claim C7, witness for the amended statement. -/
theorem get_command_unknown_identifier_no_error_witness :
    get_command_from_identifier (some "a.bam") (some "a.out.bam")
      "unknown_op" none = Except.ok none :=
  get_command_unknown_identifier_no_error (some "a.bam") (some "a.out.bam")
    "unknown_op" none (by decide) (by decide)

/-- Claim C8: when the output directory is unspecified, or neither input
source is specified, check_arguments raises ValueError and main stops there:
no directory is listed, no manifest file is read, and the wrapper is never
constructed nor run, which the empty effect list expresses. -/
theorem check_arguments_gates_main (args : Args) (fs : FileSystem)
    (h : args.output_dir = none ∨
      (args.input_dir = none ∧ args.input_files = none)) :
    (samwrap_main args fs).1 = [] ∧
    ∃ m, (samwrap_main args fs).2 = Except.error (PyErr.valueError m) := by
  have hc : ∃ m, check_arguments args = Except.error (PyErr.valueError m) := by
    rcases h with h1 | ⟨h2, h3⟩
    · exact ⟨"Must specify --output-dir", by simp [check_arguments, h1]⟩
    · rcases ho : args.output_dir with _ | od
      · exact ⟨"Must specify --output-dir", by simp [check_arguments, ho]⟩
      · exact ⟨"Must specify an --input-files file list or --input_dir directory.",
          by simp [check_arguments, ho, h2, h3]⟩
  obtain ⟨m, hm⟩ := hc
  unfold samwrap_main
  rw [hm]
  exact ⟨rfl, m, rfl⟩

/-- Claim C8, witness: a command line with no output directory. -/
theorem check_arguments_gates_main_witness :
    (samwrap_main argsNoOutput fsEmpty).1 = [] ∧
    ∃ m, (samwrap_main argsNoOutput fsEmpty).2 =
      Except.error (PyErr.valueError m) :=
  check_arguments_gates_main argsNoOutput fsEmpty (Or.inl rfl)

/-- Claim C9: on every non-empty input file list run_bams fails before any job
is dispatched: the per-file output path computation evaluates the unbound
module name re and raises NameError, and independently the worker pool
construction reads the attribute threads, which __init__ never assigns (it
stores the worker count as num_threads), so that lookup raises
AttributeError. -/
theorem run_bams_fails_before_dispatch (s : SamtoolsWrapperState)
    (h : s.input_files ≠ []) :
    (run_bams s).2 = Except.error (PyErr.nameError "name re is not defined") ∧
    s.threads_attr = Except.error
      (PyErr.attributeError "SamtoolsWrapper object has no attribute threads") := by
  obtain ⟨ifs, od, ops, desc, nt, vb⟩ := s
  rcases ifs with _ | ⟨fp, rest⟩
  · exact absurd rfl h
  · exact ⟨rfl, rfl⟩

/-- Claim C9, witness: a batch with one input file. -/
theorem run_bams_fails_before_dispatch_witness :
    (run_bams sSingleSort).2 =
      Except.error (PyErr.nameError "name re is not defined") ∧
    sSingleSort.threads_attr = Except.error
      (PyErr.attributeError "SamtoolsWrapper object has no attribute threads") :=
  run_bams_fails_before_dispatch sSingleSort (by decide)

/-- Claim C10: on an empty operation sequence generate_stream_commands raises
at the next call before its explicit zero operation branch can run, so that
branch is unreachable and no token list is returned.  (The exception is a
TypeError, because the items view handed to next is not an iterator; the raise
happens at exactly the claimed point.) -/
theorem generate_stream_commands_empty_ops_raises (s : SamtoolsWrapperState)
    (bam_fp output_fp : String) (_h : s.operations_dict = []) :
    generate_stream_commands s bam_fp output_fp =
      Except.error (PyErr.typeError "odict_items object is not an iterator") :=
  rfl

/-- Claim C10, witness: the empty operations dict. -/
theorem generate_stream_commands_empty_ops_raises_witness :
    generate_stream_commands sEmptyOps "a.bam" "a.out.bam" =
      Except.error (PyErr.typeError "odict_items object is not an iterator") :=
  generate_stream_commands_empty_ops_raises sEmptyOps "a.bam" "a.out.bam" rfl
